import Mathlib

/-!
Verification of the `science_agent` pipeline tools
(`src/science_agent/src/science_agent/tools/custom_tool.py`).

Shallow embedding: each tool's `_run` body is translated into a pure Lean
function.  External collaborators (the RDKit structural-parsing library, the
`hashlib.sha1` hexdigest, the PubMed HTTP API, the ADMET prediction HTTP
service, Python's `float(...)` parser) are modelled as explicit function
parameters, so every theorem quantifies over the collaborator's behaviour.
Python exceptions that escape a tool are modelled with `Except String`;
Python `dict` built by comprehension is modelled with last-write-wins
association-list lookup.  Strings are Lean `String`s with ASCII digit /
whitespace semantics.
-/

/-- Scalar values stored in an entity's `extras` mapping (the code only ever
stores floats and strings there); floats are modelled as rationals. -/
inductive ExtraVal where
  | num (q : ℚ)
  | str (s : String)
deriving DecidableEq, Repr

/-- Model of the pydantic `NormalizedEntity` (custom_tool.py lines 38-45).
`extras` is an insertion-ordered string-keyed mapping. -/
structure NormalizedEntity where
  row_id : Nat
  entity_type : String
  identifier : String
  normalized_id : String
  name : Option String := none
  context_tags : List String := []
  extras : List (String × ExtraVal) := []
deriving DecidableEq, Repr

/-- Model of the pydantic `LiteratureRef` (lines 48-55); `year` is an
optional integer. -/
structure LiteratureRef where
  title : String
  year : Option Nat := none
  source : String := "pubmed"
  pmid : Option String := none
  doi : Option String := none
  url : Option String := none
  snippet : Option String := none
deriving DecidableEq, Repr

/-- Model of the pydantic `LiteratureBundle` (lines 58-60). -/
structure LiteratureBundle where
  normalized_id : String
  references : List LiteratureRef := []
deriving DecidableEq, Repr

/-- Model of the pydantic `ADMETPrediction` (lines 78-84); the five float
scores are modelled as rationals. -/
structure ADMETPrediction where
  normalized_id : String
  absorption : ℚ
  distribution : ℚ
  metabolism : ℚ
  excretion : ℚ
  toxicity : ℚ
deriving DecidableEq, Repr

/-- Model of the pydantic `RunReport` (lines 87-91); `outputs` is an
insertion-ordered mapping artifact-name → path. -/
structure RunReport where
  job_id : String
  input_hash : String
  n_entities : Nat
  outputs : List (String × String)
deriving DecidableEq, Repr

/-- Python `x or y` on an optional string (`None` and `""` are falsy). -/
def pyOrStr (a : Option String) (b : String) : String :=
  match a with
  | none => b
  | some s => if s = "" then b else s

/-- Last-write-wins lookup: the value a Python `dict` comprehension built
from `ps` in order associates with key `k`. -/
def lookupLast {α : Type} (ps : List (String × α)) (k : String) : Option α :=
  ((ps.filter (fun p => p.1 = k)).getLast?).map (fun p => p.2)

/-- Python `str.strip()`: drop whitespace from both ends (defined on the
character list so that it evaluates inside the kernel). -/
def pyStrip (s : String) : String :=
  ⟨((s.data.dropWhile Char.isWhitespace).reverse.dropWhile
      Char.isWhitespace).reverse⟩

/-- Python `str.lower()` (ASCII case mapping). -/
def pyLower (s : String) : String :=
  ⟨s.data.map Char.toLower⟩

/-- Python slicing `s[:n]`: the first `n` characters. -/
def pyTake (s : String) (n : Nat) : String :=
  ⟨s.data.take n⟩

/-- Python `sep.join(xs)`. -/
def pyJoin (sep : String) : List String → String
  | [] => ""
  | h :: t => t.foldl (fun acc x => acc ++ sep ++ x) h

/-- Helper for `pySplitComma`, working on the character list. -/
def splitCommaAux : List Char → List (List Char)
  | [] => [[]]
  | c :: cs =>
    match splitCommaAux cs with
    | [] => [[]]
    | h :: t => if c = ',' then [] :: h :: t else (c :: h) :: t

/-- Python `s.split(",")`: split on every comma (`""` yields `[""]`). -/
def pySplitComma (s : String) : List String :=
  (splitCommaAux s.data).map (fun l => String.mk l)

/- ## Identifier Normalizer (`NormalizeEntitiesTool._run`, lines 122-175) -/

/-- A raw CSV row as seen by the normalizer: the four keys it reads
(`r.get(...)` returns `None` when the key is absent). -/
structure RawRow where
  entity_type : Option String := none
  identifier : Option String := none
  name : Option String := none
  context_tags : Option String := none
deriving Repr

/-- The RDKit structural-parsing collaborator: an abstract molecule type with
parsing (`Chem.MolFromSmiles`, `None` on parse failure), canonical
serialization (`Chem.MolToSmiles(·, canonical=True)`) and the two descriptor
computations (`Descriptors.MolWt`, `Descriptors.MolLogP`). -/
structure ChemLib : Type 1 where
  Mol : Type
  molFromSmiles : String → Option Mol
  molToSmiles : Mol → String
  molWt : Mol → ℚ
  molLogP : Mol → ℚ

/-- One iteration of the normalizer loop (lines 137-171) at index `i`.
`chem` is `some` the RDKit collaborator when the library is importable and
`none` otherwise (the code's `if Chem:` test); `sha1hex` is the
`hashlib.sha1(·).hexdigest()` collaborator. -/
def normalizeRow (chem : Option ChemLib) (sha1hex : String → String)
    (i : Nat) (r : RawRow) : NormalizedEntity :=
  let etype := pyLower (pyStrip (r.entity_type.getD ""))
  let ident := pyStrip (r.identifier.getD "")
  let tags := ((pySplitComma (r.context_tags.getD "")).map pyStrip).filter
    (fun t => t ≠ "")
  let idExtras : String × List (String × ExtraVal) :=
    if etype = "compound" then
      match chem with
      | some c =>
        match c.molFromSmiles ident with
        | some mol =>
          let can0 := c.molToSmiles mol
          let can := if can0 = "" then ident else can0
          (pyTake (sha1hex can) 27,
           [("mw", ExtraVal.num (c.molWt mol)),
            ("logp", ExtraVal.num (c.molLogP mol)),
            ("canonical_smiles", ExtraVal.str can)])
        | none => (ident, [])
      | none =>
        (ident, [("note", ExtraVal.str "RDKit not installed; kept original identifier")])
    else if etype = "protein" then
      (ident, [("note", ExtraVal.str "Protein normalization is a pass-through in demo")])
    else
      (ident, [])
  { row_id := i
    entity_type := etype
    identifier := ident
    normalized_id := idExtras.1
    name := r.name
    context_tags := tags
    extras := idExtras.2 }

/-- The normalizer body over a list of rows (`for i, r in enumerate(rows)`). -/
def normalizeRows (chem : Option ChemLib) (sha1hex : String → String)
    (rows : List RawRow) : List NormalizedEntity :=
  rows.enum.map (fun p => normalizeRow chem sha1hex p.1 p.2)

/-- ASCII hexadecimal digit (lower-case, as produced by `hexdigest()`). -/
def isHexChar (c : Char) : Bool :=
  c.isDigit || ('a' ≤ c && c ≤ 'f')

/- ## Literature Fetcher (`FetchPubMedTool._run`, lines 187-278) -/

/-- One PubMed summary document as consumed by the fetcher: the two fields
the loop reads (`doc.get("title")`, `doc.get("pubdate")`). -/
structure PubDoc where
  title : Option String := none
  pubdate : Option String := none
deriving DecidableEq, Repr

/-- Outcome of the stage-1 `requests.get(esearch, ...)` call together with
`r.json().get("esearchresult", {}).get("idlist", [])`: `exn` when the call or
its JSON decoding raises, otherwise the status success flag `r.ok` and the
decoded id list. -/
inductive SearchResult where
  | exn
  | resp (ok : Bool) (ids : List String)

/-- Outcome of the stage-2 `requests.get(esummary, ...)` call together with
`r2.json().get("result", {})`: `exn` on a raised exception, otherwise `r2.ok`
and the decoded pid → document mapping. -/
inductive SummarizeResult where
  | exn
  | resp (ok : Bool) (docs : List (String × PubDoc))

/-- The external bibliographic search API (both stages). -/
structure PubMedEnv : Type where
  search : String → SearchResult
  summarize : List String → SummarizeResult

/-- Decimal value of an all-digit string, the value Python's `int(...)`
returns on it. -/
def strToNat (s : String) : Nat :=
  s.data.foldl (fun n c => n * 10 + (c.toNat - 48)) 0

/-- Year extraction (lines 257-262): `d = (doc.get("pubdate") or "")[:4]`,
then `int(d) if d.isdigit() else None` (`str.isdigit` is true iff the string
is non-empty and all digits). -/
def yearOf (pubdate : Option String) : Option Nat :=
  let d := pyTake (pubdate.getD "") 4
  if d ≠ "" ∧ d.data.all Char.isDigit then some (strToNat d) else none

/-- One reference built in the stage-2 loop (lines 254-264) for pmid `pid`,
from `doc = docs.get(pid) or {}` (`none` models a missing/falsy doc). -/
def mkRef (q pid : String) (doc : Option PubDoc) : LiteratureRef :=
  let d := doc.getD {}
  { title := pyOrStr d.title q
    year := yearOf d.pubdate
    pmid := some pid
    url := some ("https://pubmed.ncbi.nlm.nih.gov/" ++ pid ++ "/") }

/-- The search query built for an entity (lines 221-224):
`q = e.name or e.identifier`, then context tags space-joined and appended. -/
def queryOf (e : NormalizedEntity) : String :=
  let base := pyOrStr e.name e.identifier
  if e.context_tags ≠ [] then
    base ++ " " ++ pyJoin " " e.context_tags
  else base

/-- First placeholder reference of the fallback mock (line 270). -/
def placeholderStudy (q : String) : LiteratureRef :=
  { title := q ++ " – placeholder study", year := some 2018, pmid := none, url := none }

/-- Second placeholder reference of the fallback mock (line 271). -/
def placeholderReview (q : String) : LiteratureRef :=
  { title := q ++ " – review article", year := some 2021, pmid := none, url := none }

/-- The reference list built for one entity (loop body, lines 220-272): the
two-stage search guarded by `requests and q.strip()` (the `requests` import
is unconditional, hence always truthy), every raised exception caught and
degrading to `refs = []`, and the two-placeholder fallback whenever `refs`
ends up empty. -/
def fetchRefs (env : PubMedEnv) (e : NormalizedEntity) : List LiteratureRef :=
  let q := queryOf e
  let refs : List LiteratureRef :=
    if pyStrip q ≠ "" then
      match env.search q with
      | SearchResult.exn => []
      | SearchResult.resp ok ids0 =>
        let ids := if ok then ids0 else []
        if ids ≠ [] then
          match env.summarize ids with
          | SummarizeResult.exn => []
          | SummarizeResult.resp ok2 docs0 =>
            let docs := if ok2 then docs0 else []
            ids.map (fun pid => mkRef q pid (lookupLast docs pid))
        else []
    else []
  if refs = [] then [placeholderStudy q, placeholderReview q] else refs

/-- The bundle appended for one entity (line 274). -/
def fetchBundle (env : PubMedEnv) (e : NormalizedEntity) : LiteratureBundle :=
  { normalized_id := e.normalized_id, references := fetchRefs env e }

/-- The fetcher body over the validated entity list (lines 220-274). -/
def fetchPubMed (env : PubMedEnv) (ents : List NormalizedEntity) :
    List LiteratureBundle :=
  ents.map (fetchBundle env)

/- ## ADMET Predictor (`PredictADMETTool._run` lines 290-337 and
`_parse_results` lines 339-351) -/

/-- A value stored in the parsed-CSV row dict: `float(value)` when that
parses, the raw string otherwise (lines 345-349). -/
inductive CsvVal where
  | num (q : ℚ)
  | str (s : String)
deriving DecidableEq, Repr

/-- Outcome of the `httpx.post(.../predict, ...)` call: `exn` when the call
raises (there is no `try` around it, so this propagates), otherwise the HTTP
status code and the response body as the record rows `csv.reader` yields. -/
inductive PostResult where
  | exn
  | resp (status : Nat) (rows : List (List String))

/-- The ADMET prediction service plus Python's `float(...)` parser. -/
structure AdmetEnv : Type where
  post : String → PostResult
  pyFloat : String → Option ℚ

/-- Insert with Python `dict` semantics: overwrite in place, else append. -/
def dictInsert (d : List (String × CsvVal)) (k : String) (v : CsvVal) :
    List (String × CsvVal) :=
  if d.any (fun p => p.1 = k) then
    d.map (fun p => if p.1 = k then (k, v) else p)
  else d ++ [(k, v)]

/-- The inner loop of `_parse_results` (lines 343-349):
`for i, value in enumerate(row): row_dict[headers[i]] = ...`; an index past
the header list raises `IndexError`. -/
def rowToDictGo (pyFloat : String → Option ℚ) (headers : List String) :
    Nat → List String → List (String × CsvVal) →
    Except String (List (String × CsvVal))
  | _, [], d => Except.ok d
  | i, v :: vs, d =>
    match headers.get? i with
    | none => Except.error "IndexError"
    | some h =>
      let val := match pyFloat v with
        | some f => CsvVal.num f
        | none => CsvVal.str v
      rowToDictGo pyFloat headers (i + 1) vs (dictInsert d h val)

/-- `_parse_results` (lines 339-351): `headers = next(csv_reader)` raises
`StopIteration` on an empty body; the first data row becomes the dict; with
no data row the method returns `{}`. -/
def parseResults (pyFloat : String → Option ℚ) (rows : List (List String)) :
    Except String (List (String × CsvVal)) :=
  match rows with
  | [] => Except.error "StopIteration"
  | headers :: dataRows =>
    match dataRows with
    | [] => Except.ok []
    | row :: _ => rowToDictGo pyFloat headers 0 row []

/-- `parsed_data["solubility"]` etc. (lines 317-320): a missing key raises
`KeyError`; a value left as text fails pydantic float validation when the
`ADMETPrediction` is constructed. -/
def getScore (d : List (String × CsvVal)) (k : String) : Except String ℚ :=
  match lookupLast d k with
  | none => Except.error "KeyError"
  | some (CsvVal.num f) => Except.ok f
  | some (CsvVal.str _) => Except.error "ValidationError"

/-- The loop body for one entity (lines 300-333): compounds are posted to
the service (a raised call is fatal, a non-200 status is silently skipped,
a 200 body is parsed and mapped onto the five fields), proteins get an
all-zero record without touching the service, other types are skipped. -/
def perEntity (env : AdmetEnv) (e : NormalizedEntity) :
    Except String (Option ADMETPrediction) :=
  if e.entity_type = "compound" then
    match env.post e.identifier with
    | PostResult.exn => Except.error "httpx error"
    | PostResult.resp status rows =>
      if status = 200 then do
        let d ← parseResults env.pyFloat rows
        let a ← getScore d "solubility"
        let b ← getScore d "ppbr"
        let m ← getScore d "cyp1a2-inhibitor"
        let x ← getScore d "cl-hepa"
        let t ← getScore d "herg"
        Except.ok (some { normalized_id := e.normalized_id, absorption := a,
                          distribution := b, metabolism := m, excretion := x,
                          toxicity := t })
      else Except.ok none
  else if e.entity_type = "protein" then
    Except.ok (some { normalized_id := e.normalized_id, absorption := 0,
                      distribution := 0, metabolism := 0, excretion := 0,
                      toxicity := 0 })
  else Except.ok none

/-- The predictor body (lines 300-337): the loop appends per-entity records
in processing order; the first uncaught exception aborts the whole step, so
nothing is emitted on a fatal run. -/
def predictADMET (env : AdmetEnv) : List NormalizedEntity →
    Except String (List ADMETPrediction)
  | [] => Except.ok []
  | e :: es => do
    let o ← perEntity env e
    let rest ← predictADMET env es
    Except.ok (match o with
      | some p => p :: rest
      | none => rest)

/-- The all-zero record appended for a protein entity (lines 324-333). -/
def zeroPrediction (nid : String) : ADMETPrediction :=
  { normalized_id := nid, absorption := 0, distribution := 0,
    metabolism := 0, excretion := 0, toxicity := 0 }

/- ## Report Compiler (`CompileReportTool._run`, lines 367-462) -/

/-- A JSON value, for the `web_json` input the compiler decodes and
shape-checks (lines 380-385). -/
inductive Json where
  | null
  | bool (b : Bool)
  | num (q : ℚ)
  | str (s : String)
  | arr (xs : List Json)
  | obj (kvs : List (String × Json))

/-- Last-write-wins key lookup in a decoded JSON object (Python `dict`). -/
def jsonLookup (kvs : List (String × Json)) (k : String) : Option Json :=
  ((kvs.filter (fun p => p.1 = k)).getLast?).map (fun p => p.2)

/-- The `isinstance(web_data, dict) and "items" in web_data` shape test
(line 381). -/
def webShapeOk : Json → Bool
  | Json.obj kvs => kvs.any (fun p => p.1 = "items")
  | _ => false

/-- Decode a JSON array that must consist solely of strings. -/
def asStrList : List Json → Option (List String)
  | [] => some []
  | Json.str s :: rest => (asStrList rest).map (fun l => s :: l)
  | _ => none

/-- One step of the dict comprehension
`{item["normalized_id"]: item["summaries"] for item in web_data["items"]}`
(line 382): a missing key raises `KeyError`; an item that is not a mapping
raises `TypeError`.  Field values of unexpected JSON types are modelled as
errors (Python would defer the failure to rendering). -/
def itemToPair : Json → Except String (String × List String)
  | Json.obj kvs =>
    match jsonLookup kvs "normalized_id" with
    | none => Except.error "KeyError: normalized_id"
    | some nidJ =>
      match jsonLookup kvs "summaries" with
      | none => Except.error "KeyError: summaries"
      | some sJ =>
        match nidJ, sJ with
        | Json.str nid, Json.arr xs =>
          match asStrList xs with
          | some l => Except.ok (nid, l)
          | none => Except.error "unsupported summaries value"
        | _, _ => Except.error "unsupported item field types"
  | _ => Except.error "TypeError: item is not a mapping"

/-- The web-summaries re-indexing (lines 380-385): expected container shape
runs the comprehension, anything else degrades to the empty mapping. -/
def mkWebMap : Json → Except String (List (String × List String))
  | Json.obj kvs =>
    if kvs.any (fun p => p.1 = "items") then
      match jsonLookup kvs "items" with
      | some (Json.arr items) => items.mapM itemToPair
      | _ => Except.error "TypeError: items is not iterable of mappings"
    else Except.ok []
  | _ => Except.ok []

/-- `web_map.get(...)` over the comprehension-built dict. -/
def webLookup (m : List (String × List String)) (k : String) :
    Option (List String) :=
  lookupLast m k

/-- `literature_map = {s["normalized_id"]: s for s in ...}` (line 387). -/
def mkLitMap (bs : List LiteratureBundle) (k : String) :
    Option LiteratureBundle :=
  lookupLast (bs.map (fun b => (b.normalized_id, b))) k

/-- `admet_map = {s["normalized_id"]: s for s in ...}` (line 388). -/
def mkAdmetMap (ps : List ADMETPrediction) (k : String) :
    Option ADMETPrediction :=
  lookupLast (ps.map (fun p => (p.normalized_id, p))) k

/-- Rendering of one `extras` value inside `json.dumps` (display detail;
the report claims never inspect this text). -/
def dumpExtraVal : ExtraVal → String
  | ExtraVal.num q => toString q
  | ExtraVal.str s => "\"" ++ s ++ "\""

/-- `json.dumps(e.extras)` (line 408, display detail). -/
def dumpExtras (ex : List (String × ExtraVal)) : String :=
  "\x7b" ++
    String.intercalate ", "
      (ex.map (fun p => "\"" ++ p.1 ++ "\": " ++ dumpExtraVal p.2)) ++
  "\x7d"

/-- `json.dumps(ad, indent=2)` (line 437, display detail). -/
def dumpAdmet (p : ADMETPrediction) : String :=
  "\x7b\n  \"normalized_id\": \"" ++ p.normalized_id ++ "\",\n  \"absorption\": "
    ++ toString p.absorption ++ ",\n  \"distribution\": " ++ toString p.distribution
    ++ ",\n  \"metabolism\": " ++ toString p.metabolism ++ ",\n  \"excretion\": "
    ++ toString p.excretion ++ ",\n  \"toxicity\": " ++ toString p.toxicity ++ "\n\x7d"

/-- The `### ...` header line opening an entity's section (line 405). -/
def sectionHeader (e : NormalizedEntity) : String :=
  "### " ++ pyOrStr e.name e.identifier ++ " (" ++ e.entity_type ++ ")"

/-- The lines appended for one entity in the report loop (lines 402-446):
entity header block, literature-summary block with the PubMed-refs bullet
list, ADMET block — each joined field degrading to its placeholder text. -/
def entitySection (wm : String → Option (List String))
    (lm : String → Option LiteratureBundle)
    (am : String → Option ADMETPrediction) (e : NormalizedEntity) :
    List String :=
  let part1 : List String :=
    [sectionHeader e,
     "- Normalized ID: `" ++ e.normalized_id ++ "`",
     "- Context: " ++ (if e.context_tags ≠ [] then
        pyJoin ", " e.context_tags else "(none)"),
     "- Extras: `" ++ dumpExtras e.extras ++ "`",
     ""]
  let li := lm e.normalized_id
  let pubmedRefs : List String :=
    match li with
    | some b =>
      if b.references ≠ [] then
        b.references.map (fun r =>
          match r.url with
          | some u => if u = "" then "- (no URL available)" else "- " ++ u
          | none => "- (no URL available)")
      else ["- (none)"]
    | none => ["- (none)"]
  let we := wm e.normalized_id
  let summaryLine : String :=
    match we with
    | some l => if l = [] then "No pubmed refs available" else pyJoin "" l
    | none => "No pubmed refs available"
  let part2 : List String :=
    ["#### Literature Summary", summaryLine, "- **PubMed refs**:"] ++
      pubmedRefs ++ [""]
  let part3 : List String :=
    match am e.normalized_id with
    | some p => ["#### ADMET / Toxicity", "```json", dumpAdmet p, "```", ""]
    | none => ["#### ADMET / Toxicity", "No ADMET data available", ""]
  part1 ++ part2 ++ part3

/-- `RUN_DIR.name` for the repository's output directory (line 18). -/
def runDirName : String := "output"

/-- The fixed preamble lines of the report (lines 393-401). -/
def reportPreamble (inputPath inputHash : String) (n : Nat) : List String :=
  ["# Biology Research Run – " ++ runDirName,
   "",
   "- **Input file**: `" ++ inputPath ++ "`",
   "- **SHA1**: `" ++ inputHash ++ "`",
   "- **Entities**: " ++ toString n,
   "",
   "## Entities"]

/-- The `for e in ents: lines += [...]` loop (lines 402-446). -/
def sectionsLoop (wm : String → Option (List String))
    (lm : String → Option LiteratureBundle)
    (am : String → Option ADMETPrediction) :
    List NormalizedEntity → List String
  | [] => []
  | e :: es => entitySection wm lm am e ++ sectionsLoop wm lm am es

/-- The full list of report lines the compiler writes to `report.md`
(lines 375-449): `inputHash` stands for `sha1_file(input_path)`. -/
def compileReportLines (inputPath inputHash : String) (web : Json)
    (lit : List LiteratureBundle) (admet : List ADMETPrediction)
    (ents : List NormalizedEntity) : Except String (List String) := do
  let wm ← mkWebMap web
  Except.ok (reportPreamble inputPath inputHash ents.length ++
    sectionsLoop (webLookup wm) (mkLitMap lit) (mkAdmetMap admet) ents)

/-- The `RunReport` record written to `run_meta.json` (lines 450-461);
paths are `str(RUN_DIR / ...)` rendered relative to the repo. -/
def compileRunReport (inputHash : String) (ents : List NormalizedEntity) :
    RunReport :=
  { job_id := runDirName
    input_hash := inputHash
    n_entities := ents.length
    outputs :=
      [("report_md", runDirName ++ "/report.md"),
       ("entities_json", runDirName ++ "/normalized_entities.json"),
       ("literature_json", runDirName ++ "/literature_summaries.json"),
       ("admet_json", runDirName ++ "/admet_predictions.json")] }

/-- Every file the pipeline's tools actually write under the run output
directory: `raw_input.json` (line 109), `normalized_entities.json`
(line 174), `literature_refs.json` (line 277), `admet_predictions.json`
(line 336), `report.md` (line 448), `run_meta.json` (line 461). -/
def persistedArtifacts : List String :=
  [runDirName ++ "/raw_input.json",
   runDirName ++ "/normalized_entities.json",
   runDirName ++ "/literature_refs.json",
   runDirName ++ "/admet_predictions.json",
   runDirName ++ "/report.md",
   runDirName ++ "/run_meta.json"]

/- ## Concrete fixtures used by counterexamples and witnesses -/

/-- A compound entity with name unset and no context tags; its query is its
identifier. -/
def entAspirin : NormalizedEntity :=
  { row_id := 0, entity_type := "compound", identifier := "aspirin",
    normalized_id := "aspirin" }

/-- A bibliographic environment whose search stage succeeds with one id and
whose summarize stage answers with a non-success HTTP status. -/
def envStage2Fail : PubMedEnv :=
  { search := fun _ => SearchResult.resp true ["1"]
    summarize := fun _ => SummarizeResult.resp false [] }

/-- A bibliographic environment in which the search stage raises. -/
def envSearchExn : PubMedEnv :=
  { search := fun _ => SearchResult.exn
    summarize := fun _ => SummarizeResult.exn }

/-- A summary document whose date field is two digits long. -/
def doc99 : PubDoc := { pubdate := some "99" }

/-- A summary document with a well-formed PubMed date. -/
def doc2018 : PubDoc := { pubdate := some "2018 Jan" }

/-- A structural-parsing collaborator that parses exactly the SMILES string
`"CCO"` (to a trivial molecule) with canonical form `"CCO"`. -/
def chemT : ChemLib :=
  { Mol := Unit
    molFromSmiles := fun s => if s = "CCO" then some () else none
    molToSmiles := fun _ => "CCO"
    molWt := fun _ => 46
    molLogP := fun _ => 0 }

/-- A structural-parsing collaborator for which every parse fails. -/
def chemFail : ChemLib :=
  { Mol := Unit
    molFromSmiles := fun _ => none
    molToSmiles := fun _ => ""
    molWt := fun _ => 0
    molLogP := fun _ => 0 }

/-- A stand-in `hexdigest` collaborator returning a fixed 40-hex-char
digest. -/
def sha1c : String → String :=
  fun _ => "0123456789abcdef0123456789abcdef01234567"

/-- A compound row whose identifier parses. -/
def rowCCO : RawRow := { entity_type := some "compound", identifier := some "CCO" }

/-- A compound row whose identifier fails to parse. -/
def rowXYZ : RawRow := { entity_type := some "compound", identifier := some "xyz" }

/-- A compound entity fixture for the predictor. -/
def entCCO : NormalizedEntity :=
  { row_id := 0, entity_type := "compound", identifier := "CCO",
    normalized_id := "cco" }

/-- A protein entity fixture. -/
def entProt : NormalizedEntity :=
  { row_id := 1, entity_type := "protein", identifier := "P1",
    normalized_id := "p1" }

/-- A peptide entity fixture. -/
def entPep : NormalizedEntity :=
  { row_id := 2, entity_type := "peptide", identifier := "Q1",
    normalized_id := "q1" }

/-- A prediction service whose post call raises (network error). -/
def envNetFail : AdmetEnv :=
  { post := fun _ => PostResult.exn, pyFloat := fun _ => none }

/-- A prediction service answering every post with a non-success status. -/
def env404 : AdmetEnv :=
  { post := fun _ => PostResult.resp 404 [], pyFloat := fun _ => none }

/- ## Claims about the Literature Fetcher -/

/-- Claim C10: for every entity — including one whose query is empty, for
which no search is attempted — the fetcher's bundle holds a non-empty
reference list, unconditionally: either the per-id references from the
search path (which exist only when the id list is non-empty) or the two
placeholder references of the fallback. -/
theorem c10_bundle_never_empty (env : PubMedEnv) (e : NormalizedEntity) :
    0 < (fetchBundle env e).references.length := by
  show 0 < (fetchRefs env e).length
  have h : ∀ (q : String) (l : List LiteratureRef),
      0 < (if l = [] then [placeholderStudy q, placeholderReview q] else l).length := by
    intro q l
    split
    · simp
    · next hne => exact List.length_pos.mpr hne
  unfold fetchRefs
  dsimp only
  exact h _ _

/-- Claim C2 counterexample: a non-success HTTP status on the summarize
stage is a failure of the two-stage search sequence for a non-empty query,
yet the returned bundle is not the two placeholder references — it holds
one reference per found id, titled with the query and carrying a PubMed
URL. -/
theorem c2_stage2_nonsuccess_counterexample :
    envStage2Fail.summarize ["1"] = SummarizeResult.resp false []
    ∧ pyStrip (queryOf entAspirin) ≠ ""
    ∧ (fetchBundle envStage2Fail entAspirin).references ≠
        [placeholderStudy (queryOf entAspirin), placeholderReview (queryOf entAspirin)]
    ∧ (fetchBundle envStage2Fail entAspirin).references =
        [{ title := "aspirin", pmid := some "1",
           url := some "https://pubmed.ncbi.nlm.nih.gov/1/" }] :=
  ⟨rfl, by decide, by decide, by decide⟩

/-- Claim C2 (amended): for an entity whose query is non-empty after
stripping, the bundle is exactly the two placeholder references whenever the
search stage raises, returns a non-success status, or yields zero ids, and
whenever the summarize stage raises; but when the summarize stage returns a
response (success or not) for a non-empty id list, the bundle is one
reference per id (with the query as fallback title), not the placeholders. -/
theorem c2_placeholder_fallback (env : PubMedEnv) (e : NormalizedEntity)
    (hq : pyStrip (queryOf e) ≠ "") :
    (env.search (queryOf e) = SearchResult.exn →
      (fetchBundle env e).references =
        [placeholderStudy (queryOf e), placeholderReview (queryOf e)])
    ∧ (∀ ok ids, env.search (queryOf e) = SearchResult.resp ok ids →
        (ok = false ∨ ids = []) →
        (fetchBundle env e).references =
          [placeholderStudy (queryOf e), placeholderReview (queryOf e)])
    ∧ (∀ ids, env.search (queryOf e) = SearchResult.resp true ids → ids ≠ [] →
        env.summarize ids = SummarizeResult.exn →
        (fetchBundle env e).references =
          [placeholderStudy (queryOf e), placeholderReview (queryOf e)])
    ∧ (∀ ids ok2 docs, env.search (queryOf e) = SearchResult.resp true ids →
        ids ≠ [] → env.summarize ids = SummarizeResult.resp ok2 docs →
        (fetchBundle env e).references =
          ids.map (fun pid =>
            mkRef (queryOf e) pid (lookupLast (if ok2 then docs else []) pid))) := by
  refine ⟨?_, ?_, ?_, ?_⟩
  · intro h
    show fetchRefs env e = _
    unfold fetchRefs
    simp [hq, h]
  · intro ok ids h hfail
    show fetchRefs env e = _
    unfold fetchRefs
    rcases hfail with hf | hf <;> simp [hq, h, hf]
  · intro ids h hne hsum
    show fetchRefs env e = _
    unfold fetchRefs
    simp [hq, h, hne, hsum]
  · intro ids ok2 docs h hne hsum
    show fetchRefs env e = _
    unfold fetchRefs
    simp [hq, h, hne, hsum]

/-- Claim C6 counterexample: for the document with date `"99"` the fetcher
sets the year (to 99), although the first-four-character slice of the date
does not consist of four digit characters — the code's `isdigit` test also
accepts shorter all-digit prefixes, so "year set iff all four characters are
digits" fails. -/
theorem c6_short_date_counterexample :
    ¬ ((mkRef "q" "1" (some doc99)).year.isSome ↔
        ((pyTake (doc99.pubdate.getD "") 4).length = 4 ∧
          (pyTake (doc99.pubdate.getD "") 4).data.all Char.isDigit)) := by
  decide

/-- Claim C6 (amended): for every document returned by the summarize stage,
the reference's year is set iff the first-four-character slice of the date
field is non-empty and consists solely of digit characters (a date shorter
than four characters still yields a year when it is all digits); when set it
is the decimal value of that slice, and year extraction is total — it never
fails the request. -/
theorem c6_year_extraction (q pid : String) (doc : PubDoc) :
    ((mkRef q pid (some doc)).year.isSome ↔
      (pyTake (doc.pubdate.getD "") 4 ≠ "" ∧
        (pyTake (doc.pubdate.getD "") 4).data.all Char.isDigit))
    ∧ (∀ n, (mkRef q pid (some doc)).year = some n →
        n = strToNat (pyTake (doc.pubdate.getD "") 4)) := by
  constructor
  · show (yearOf doc.pubdate).isSome ↔ _
    unfold yearOf
    dsimp only
    split
    next h => simpa using h
    next h => simpa using h
  · intro n hn
    replace hn : yearOf doc.pubdate = some n := hn
    unfold yearOf at hn
    dsimp only at hn
    split at hn
    · injection hn with h
      exact h.symm
    · exact Option.noConfusion hn

/-- Witness for `c6_year_extraction` at the document with date
`"2018 Jan"`. -/
theorem c6_year_extraction_witness :
    2018 = strToNat (pyTake (doc2018.pubdate.getD "") 4) :=
  (c6_year_extraction "q" "1" doc2018).2 2018 (by decide)

/- ## Claims about the Identifier Normalizer -/

/-- Claim C3: for a compound row whose identifier parses, the normalizer
sets `normalized_id` to the first 27 characters of the (160-bit, 40-hex-char)
digest of the canonical serialization — hence 27 hex characters — stores
molecular weight, logP and the canonical representation string in `extras`,
and the same identifier always normalizes to the same `normalized_id`
(independently of row index, name, or tags). -/
theorem c3_compound_canonical_hash (chem : ChemLib) (sha1hex : String → String)
    (hsha : ∀ s, (sha1hex s).length = 40 ∧ (sha1hex s).data.all isHexChar)
    (i : Nat) (r : RawRow) (mol : chem.Mol)
    (ht : pyLower (pyStrip (r.entity_type.getD "")) = "compound")
    (hp : chem.molFromSmiles (pyStrip (r.identifier.getD "")) = some mol) :
    (normalizeRow (some chem) sha1hex i r).normalized_id =
      pyTake (sha1hex (if chem.molToSmiles mol = "" then
        pyStrip (r.identifier.getD "") else chem.molToSmiles mol)) 27
    ∧ (normalizeRow (some chem) sha1hex i r).normalized_id.length = 27
    ∧ (normalizeRow (some chem) sha1hex i r).normalized_id.data.all isHexChar
    ∧ (normalizeRow (some chem) sha1hex i r).extras =
        [("mw", ExtraVal.num (chem.molWt mol)),
         ("logp", ExtraVal.num (chem.molLogP mol)),
         ("canonical_smiles", ExtraVal.str (if chem.molToSmiles mol = "" then
           pyStrip (r.identifier.getD "") else chem.molToSmiles mol))]
    ∧ (∀ (j : Nat) (r' : RawRow),
        pyLower (pyStrip (r'.entity_type.getD "")) = "compound" →
        pyStrip (r'.identifier.getD "") = pyStrip (r.identifier.getD "") →
        (normalizeRow (some chem) sha1hex j r').normalized_id =
          (normalizeRow (some chem) sha1hex i r).normalized_id) := by
  have hid : (normalizeRow (some chem) sha1hex i r).normalized_id =
      pyTake (sha1hex (if chem.molToSmiles mol = "" then
        pyStrip (r.identifier.getD "") else chem.molToSmiles mol)) 27 := by
    simp [normalizeRow, ht, hp]
  refine ⟨hid, ?_, ?_, ?_, ?_⟩
  · rw [hid]
    show (pyTake _ 27).data.length = 27
    unfold pyTake
    simp [List.length_take, (hsha _).1]
  · rw [hid]
    unfold pyTake
    have hall := (hsha (if chem.molToSmiles mol = "" then
      pyStrip (r.identifier.getD "") else chem.molToSmiles mol)).2
    simp only [List.all_eq_true] at hall ⊢
    intro c hc
    exact hall c (List.take_subset _ _ hc)
  · simp [normalizeRow, ht, hp]
  · intro j r' ht' hi'
    have hid' : (normalizeRow (some chem) sha1hex j r').normalized_id =
        pyTake (sha1hex (if chem.molToSmiles mol = "" then
          pyStrip (r'.identifier.getD "") else chem.molToSmiles mol)) 27 := by
      simp [normalizeRow, ht', hi', hp]
    rw [hid', hid, hi']

/-- Witness for `c3_compound_canonical_hash`: the row `CCO` under the
fixture collaborators hashes to the digest's first 27 characters, with the
descriptors stored in `extras`. -/
theorem c3_compound_canonical_hash_witness :
    (normalizeRow (some chemT) sha1c 0 rowCCO).normalized_id =
      "0123456789abcdef0123456789a"
    ∧ (normalizeRow (some chemT) sha1c 0 rowCCO).extras =
        [("mw", ExtraVal.num 46), ("logp", ExtraVal.num 0),
         ("canonical_smiles", ExtraVal.str "CCO")] := by
  have h := c3_compound_canonical_hash chemT sha1c
    (fun _ => ⟨rfl, rfl⟩) 0 rowCCO () (by decide) rfl
  exact ⟨h.1.trans (by decide), h.2.2.2.1.trans (by decide)⟩

/-- Claim C5 counterexample: for a compound row whose identifier fails to
parse while the structural-parsing library is present, the normalizer keeps
the raw identifier but records NO note — `extras` stays empty (the note is
attached only on the library-missing branch, which the parse-failure path
never reaches). -/
theorem c5_parse_failure_counterexample :
    (normalizeRow (some chemFail) sha1c 0 rowXYZ).normalized_id = "xyz"
    ∧ (normalizeRow (some chemFail) sha1c 0 rowXYZ).extras = [] := by
  constructor
  · rfl
  · rfl

/-- Claim C5 (amended): for a compound row, when the structural-parsing
library is unavailable the normalizer keeps the raw identifier and records
the skip note in `extras`; when the library is present but the identifier
fails to parse, it keeps the raw identifier and leaves `extras` empty — no
note is recorded on the parse-failure path. -/
theorem c5_parse_failure_behavior (sha1hex : String → String) (i : Nat)
    (r : RawRow) (ht : pyLower (pyStrip (r.entity_type.getD "")) = "compound") :
    ((normalizeRow none sha1hex i r).normalized_id =
        pyStrip (r.identifier.getD "")
      ∧ (normalizeRow none sha1hex i r).extras =
          [("note", ExtraVal.str "RDKit not installed; kept original identifier")])
    ∧ (∀ (chem : ChemLib),
        chem.molFromSmiles (pyStrip (r.identifier.getD "")) = none →
        (normalizeRow (some chem) sha1hex i r).normalized_id =
            pyStrip (r.identifier.getD "")
          ∧ (normalizeRow (some chem) sha1hex i r).extras = []) := by
  refine ⟨⟨?_, ?_⟩, ?_⟩
  · simp [normalizeRow, ht]
  · simp [normalizeRow, ht]
  · intro chem hp
    exact ⟨by simp [normalizeRow, ht, hp], by simp [normalizeRow, ht, hp]⟩

/-- Witness for `c5_parse_failure_behavior` at the `xyz` row under the
always-failing parser. -/
theorem c5_parse_failure_behavior_witness :
    (normalizeRow (some chemFail) sha1c 0 rowXYZ).normalized_id =
        pyStrip (rowXYZ.identifier.getD "")
      ∧ (normalizeRow (some chemFail) sha1c 0 rowXYZ).extras = [] :=
  (c5_parse_failure_behavior sha1c 0 rowXYZ (by decide)).2 chemFail rfl

/- ## Claims about the ADMET Predictor -/

/-- Claim C4 counterexample: a network error on the external ADMET call is
fatal to the whole predictor step — the `httpx.post` call has no enclosing
`try`, so the predictor aborts instead of skipping the entity and
continuing. -/
theorem c4_network_error_fatal_counterexample :
    predictADMET envNetFail [entCCO] = Except.error "httpx error" := rfl

/-- Claim C4 (amended): for a compound entity, only a non-success HTTP
status is silently skipped (no prediction record, processing continues with
the remaining entities); a network error propagates as an exception, and a
success status with an unparseable (empty) body raises while parsing — both
abort the predictor step. -/
theorem c4_failure_policy (env : AdmetEnv) (es : List NormalizedEntity)
    (e : NormalizedEntity) (hc : e.entity_type = "compound") :
    (∀ status rows, env.post e.identifier = PostResult.resp status rows →
      status ≠ 200 → predictADMET env (e :: es) = predictADMET env es)
    ∧ (env.post e.identifier = PostResult.exn →
      predictADMET env (e :: es) = Except.error "httpx error")
    ∧ (env.post e.identifier = PostResult.resp 200 [] →
      predictADMET env (e :: es) = Except.error "StopIteration") := by
  refine ⟨?_, ?_, ?_⟩
  · intro status rows hpost hs
    have hpe : perEntity env e = Except.ok none := by
      simp [perEntity, hc, hpost, hs]
    cases hrest : predictADMET env es with
    | error msg => simp [predictADMET, hpe, hrest, Bind.bind, Except.bind]
    | ok l => simp [predictADMET, hpe, hrest, Bind.bind, Except.bind]
  · intro hpost
    have hpe : perEntity env e = Except.error "httpx error" := by
      simp [perEntity, hc, hpost]
    simp [predictADMET, hpe, Bind.bind, Except.bind]
  · intro hpost
    have hpe : perEntity env e = Except.error "StopIteration" := by
      simp [perEntity, hc, hpost, parseResults, Bind.bind, Except.bind]
    simp [predictADMET, hpe, Bind.bind, Except.bind]

/-- Witness for `c4_failure_policy`: a 404 response on the only compound
leaves the predictor output identical to the run without that entity. -/
theorem c4_failure_policy_witness :
    predictADMET env404 [entCCO] = predictADMET env404 [] :=
  (c4_failure_policy env404 [] entCCO rfl).1 404 [] rfl (by decide)

/-- On a run that completes, the emitted list is the in-order filter-map of
the per-entity outcomes. -/
lemma predictADMET_ok_eq (env : AdmetEnv) :
    ∀ (ents : List NormalizedEntity) (preds : List ADMETPrediction),
      predictADMET env ents = Except.ok preds →
      preds = ents.filterMap (fun e =>
        match perEntity env e with
        | Except.ok o => o
        | Except.error _ => none) := by
  intro ents
  induction ents with
  | nil =>
    intro preds hok
    simp only [predictADMET] at hok
    injection hok with h
    simp [← h]
  | cons e es ih =>
    intro preds hok
    cases hpe : perEntity env e with
    | error msg =>
      simp [predictADMET, hpe, Bind.bind, Except.bind] at hok
    | ok o =>
      cases hrest : predictADMET env es with
      | error msg =>
        simp [predictADMET, hpe, hrest, Bind.bind, Except.bind] at hok
      | ok rest =>
        simp only [predictADMET, hpe, hrest, Bind.bind, Except.bind] at hok
        injection hok with h
        rw [List.filterMap_cons]
        cases o with
        | none => simpa [hpe, ← h] using ih rest hrest
        | some p => simpa [hpe, ← h] using ih rest hrest

/-- Claim C7: whenever the predictor completes, the emitted records are the
in-order filter-map of the per-entity outcomes over the input (processing
order, not positionally aligned once skips occur); every protein entity
yields exactly the all-zero record without consulting the service (the
outcome holds for every service environment), and entities that are neither
compound nor protein yield no record at all. -/
theorem c7_admet_emission (env : AdmetEnv) (ents : List NormalizedEntity)
    (preds : List ADMETPrediction)
    (hok : predictADMET env ents = Except.ok preds) :
    preds = ents.filterMap (fun e =>
      match perEntity env e with
      | Except.ok o => o
      | Except.error _ => none)
    ∧ (∀ e ∈ ents, e.entity_type = "protein" →
        perEntity env e = Except.ok (some (zeroPrediction e.normalized_id)))
    ∧ (∀ e ∈ ents, e.entity_type ≠ "compound" → e.entity_type ≠ "protein" →
        perEntity env e = Except.ok none) := by
  refine ⟨predictADMET_ok_eq env ents preds hok, ?_, ?_⟩
  · intro e _ hp
    simp [perEntity, hp, zeroPrediction]
  · intro e _ h1 h2
    simp [perEntity, h1, h2]

/-- Witness for `c7_admet_emission` on a protein-plus-peptide list under
the always-raising service: the protein's all-zero record is emitted, the
peptide is skipped, no call is made. -/
theorem c7_admet_emission_witness :
    [zeroPrediction "p1"] = [entProt, entPep].filterMap (fun e =>
      match perEntity envNetFail e with
      | Except.ok o => o
      | Except.error _ => none) :=
  (c7_admet_emission envNetFail [entProt, entPep] [zeroPrediction "p1"] rfl).1

/- ## Claims about the Report Compiler -/

/-- The report loop appends exactly one section per entity, in order. -/
lemma sectionsLoop_eq_join (wm : String → Option (List String))
    (lm : String → Option LiteratureBundle)
    (am : String → Option ADMETPrediction) (ents : List NormalizedEntity) :
    sectionsLoop wm lm am ents = (ents.map (entitySection wm lm am)).flatten := by
  induction ents with
  | nil => rfl
  | cons e es ih => simp [sectionsLoop, ih]

/-- Each entity's section opens with its header line. -/
lemma entitySection_head (wm : String → Option (List String))
    (lm : String → Option LiteratureBundle)
    (am : String → Option ADMETPrediction) (e : NormalizedEntity) :
    (entitySection wm lm am e).head? = some (sectionHeader e) := rfl

/-- With no matching literature bundle, the section carries the `(none)`
citation placeholder. -/
lemma entitySection_lit_placeholder (wm : String → Option (List String))
    (lm : String → Option LiteratureBundle)
    (am : String → Option ADMETPrediction) (e : NormalizedEntity)
    (h : lm e.normalized_id = none) :
    "- (none)" ∈ entitySection wm lm am e := by
  unfold entitySection
  dsimp only
  rw [h]
  simp

/-- With no matching web summary, the section carries the
literature-unavailable placeholder line. -/
lemma entitySection_web_placeholder (wm : String → Option (List String))
    (lm : String → Option LiteratureBundle)
    (am : String → Option ADMETPrediction) (e : NormalizedEntity)
    (h : wm e.normalized_id = none) :
    "No pubmed refs available" ∈ entitySection wm lm am e := by
  unfold entitySection
  dsimp only
  rw [h]
  simp

/-- With no matching ADMET prediction, the section carries the ADMET
placeholder line. -/
lemma entitySection_admet_placeholder (wm : String → Option (List String))
    (lm : String → Option LiteratureBundle)
    (am : String → Option ADMETPrediction) (e : NormalizedEntity)
    (h : am e.normalized_id = none) :
    "No ADMET data available" ∈ entitySection wm lm am e := by
  unfold entitySection
  dsimp only
  rw [h]
  simp

/-- Claim C1: whenever the web container decodes (to any mapping `wm`), the
compiler renders the preamble followed by exactly one section per input
entity, in original input order — no entity is ever dropped — each section
opening with the entity's header line; and an entity whose `normalized_id`
matches no literature bundle, no web summary and no ADMET prediction still
yields a full section carrying the explicit placeholder text for each
missing joined field. -/
theorem c1_one_section_per_entity (inputPath inputHash : String) (web : Json)
    (lit : List LiteratureBundle) (admet : List ADMETPrediction)
    (ents : List NormalizedEntity) (wm : List (String × List String))
    (hw : mkWebMap web = Except.ok wm) :
    compileReportLines inputPath inputHash web lit admet ents =
      Except.ok (reportPreamble inputPath inputHash ents.length ++
        (ents.map (entitySection (webLookup wm) (mkLitMap lit)
          (mkAdmetMap admet))).flatten)
    ∧ ∀ e ∈ ents,
        (entitySection (webLookup wm) (mkLitMap lit) (mkAdmetMap admet) e).head?
            = some (sectionHeader e)
        ∧ (mkLitMap lit e.normalized_id = none →
            "- (none)" ∈ entitySection (webLookup wm) (mkLitMap lit)
              (mkAdmetMap admet) e)
        ∧ (webLookup wm e.normalized_id = none →
            "No pubmed refs available" ∈ entitySection (webLookup wm)
              (mkLitMap lit) (mkAdmetMap admet) e)
        ∧ (mkAdmetMap admet e.normalized_id = none →
            "No ADMET data available" ∈ entitySection (webLookup wm)
              (mkLitMap lit) (mkAdmetMap admet) e) := by
  constructor
  · simp [compileReportLines, hw, Bind.bind, Except.bind, sectionsLoop_eq_join]
  · intro e _
    exact ⟨entitySection_head _ _ _ e,
      entitySection_lit_placeholder _ _ _ e,
      entitySection_web_placeholder _ _ _ e,
      entitySection_admet_placeholder _ _ _ e⟩

/-- Witness for `c2_placeholder_fallback`: under the raising search stage,
the bundle for the aspirin entity is exactly the two placeholders. -/
theorem c2_placeholder_fallback_witness :
    (fetchBundle envSearchExn entAspirin).references =
      [placeholderStudy (queryOf entAspirin), placeholderReview (queryOf entAspirin)] :=
  (c2_placeholder_fallback envSearchExn entAspirin (by decide)).1 rfl

/-- Witness for `c1_one_section_per_entity`: one entity, null web input and
empty literature/ADMET lists — the report still holds that entity's full
section with all three placeholders. -/
theorem c1_one_section_per_entity_witness :
    compileReportLines "in.csv" "hash" Json.null [] [] [entAspirin] =
      Except.ok (reportPreamble "in.csv" "hash" 1 ++
        ([entAspirin].map (entitySection (webLookup []) (mkLitMap [])
          (mkAdmetMap []))).flatten)
    ∧ "- (none)" ∈ entitySection (webLookup []) (mkLitMap []) (mkAdmetMap [])
        entAspirin
    ∧ "No pubmed refs available" ∈ entitySection (webLookup []) (mkLitMap [])
        (mkAdmetMap []) entAspirin
    ∧ "No ADMET data available" ∈ entitySection (webLookup []) (mkLitMap [])
        (mkAdmetMap []) entAspirin := by
  have h := c1_one_section_per_entity "in.csv" "hash" Json.null [] [] [entAspirin]
    [] rfl
  have he := h.2 entAspirin (by simp)
  exact ⟨h.1, he.2.1 rfl, he.2.2.1 rfl, he.2.2.2 rfl⟩

/-- Claim C8: a web-summaries input without the expected container shape
(not a mapping carrying an `items` key) is treated as the empty mapping, the
report is still rendered — one section per entity — and every entity's
section then carries the literature-unavailable placeholder. -/
theorem c8_malformed_web_degrades (web : Json)
    (hshape : webShapeOk web = false) (inputPath inputHash : String)
    (lit : List LiteratureBundle) (admet : List ADMETPrediction)
    (ents : List NormalizedEntity) :
    mkWebMap web = Except.ok []
    ∧ compileReportLines inputPath inputHash web lit admet ents =
        Except.ok (reportPreamble inputPath inputHash ents.length ++
          (ents.map (entitySection (webLookup []) (mkLitMap lit)
            (mkAdmetMap admet))).flatten)
    ∧ ∀ e ∈ ents, "No pubmed refs available" ∈
        entitySection (webLookup []) (mkLitMap lit) (mkAdmetMap admet) e := by
  have hw : mkWebMap web = Except.ok [] := by
    cases web with
    | obj kvs =>
      have h : (kvs.any fun p => decide (p.1 = "items")) = false := by
        simpa [webShapeOk] using hshape
      unfold mkWebMap
      dsimp only
      rw [h]
      simp
    | null => rfl
    | bool b => rfl
    | num q => rfl
    | str s => rfl
    | arr xs => rfl
  refine ⟨hw, ?_, ?_⟩
  · simp [compileReportLines, hw, Bind.bind, Except.bind, sectionsLoop_eq_join]
  · intro e _
    exact entitySection_web_placeholder _ _ _ e rfl

/-- Witness for `c8_malformed_web_degrades` on a list-shaped (non-mapping)
web input. -/
theorem c8_malformed_web_degrades_witness :
    mkWebMap (Json.arr []) = Except.ok []
    ∧ compileReportLines "in.csv" "hash" (Json.arr []) [] [] [entAspirin] =
        Except.ok (reportPreamble "in.csv" "hash" 1 ++
          ([entAspirin].map (entitySection (webLookup []) (mkLitMap [])
            (mkAdmetMap []))).flatten)
    ∧ "No pubmed refs available" ∈
        entitySection (webLookup []) (mkLitMap []) (mkAdmetMap []) entAspirin := by
  have h := c8_malformed_web_degrades (Json.arr []) rfl "in.csv" "hash" [] []
    [entAspirin]
  exact ⟨h.1, h.2.1, h.2.2 entAspirin (by simp)⟩

/-- Claim C9 (code bug): the `RunReport` written to `run_meta.json` points
its `literature_json` output at `output/literature_summaries.json`, a path
no pipeline step ever writes — the Literature Fetcher persists
`output/literature_refs.json`, which appears in no `RunReport` output
entry.  The claim (and the spec's artifact list) describe the intended
on-disk contract; the code's path is a dangling slip. -/
theorem c9_run_meta_artifact_path_mismatch :
    lookupLast (compileRunReport "deadbeef" []).outputs "literature_json" =
      some (runDirName ++ "/literature_summaries.json")
    ∧ persistedArtifacts.contains (runDirName ++ "/literature_summaries.json")
        = false
    ∧ (runDirName ++ "/literature_refs.json") ∈ persistedArtifacts
    ∧ ((compileRunReport "deadbeef" []).outputs.map Prod.snd).contains
        (runDirName ++ "/literature_refs.json") = false := by
  refine ⟨rfl, by decide, by decide, by decide⟩
